import Mathlib

/-!
Shallow embedding of the go-a2a/a2a repository (files jsonrpc.go and the
schema file) and proofs about its constructors and JSON-RPC layer.

Modelling conventions:
- Go dynamic values of static type any are modelled by the inductive GoVal;
  the nil interface value is the constructor GoVal.vnil, which is also the
  Go zero value of an any-typed struct field.
- Go pointer-typed struct fields (such as Text of type pointer to string) are
  modelled by Option; the Go nil pointer is none.
- Go string-based defined types (PartType, Role) are modelled as String
  abbreviations with the same named constants.
- Go int32 is modelled as the integers in the closed interval from
  -2147483648 to 2147483647.
- Go variadic Part parameters are modelled as List Part.
-/

namespace A2A

/-- Dynamic Go value for struct fields of static type any. `vnil` is the nil
interface value, the zero value of such a field. -/
inductive GoVal
  | vnil
  | vstr (s : String)
  | vint (n : ℤ)
  | vbool (b : Bool)
deriving DecidableEq

/-- A 32-bit signed integer: the payload type of the int32 instantiation of
`NewID`. -/
abbrev Int32 := {n : ℤ // -2147483648 ≤ n ∧ n ≤ 2147483647}

/-! ### jsonrpc.go: method name constants (lines 13-28) -/

def MethodSend : String := "tasks/send"

def MethodGet : String := "tasks/get"

def MethodCancel : String := "tasks/cancel"

def MethodPushNotificationSet : String := "tasks/pushNotification/set"

def MethodPushNotificationGet : String := "tasks/pushNotification/get"

def MethodSendSubscribe : String := "tasks/sendSubscribe"

def MethodResubscribe : String := "tasks/resubscribe"

/-! ### jsonrpc.go: the id type (lines 48-69)

Go declares `type id struct { any }`: a struct with a single embedded field of
interface type any. `NewID` is generic over `T string | int32`, so the stored
dynamic value is either a Go string or a Go int32; the zero value of the
struct stores the nil interface value. -/

/-- The dynamic value held by the embedded any field of the Go struct `id`:
a string, an int32, or (for the zero value of the struct, which `NewID`
never produces) the nil interface value. -/
inductive IDVal
  | idString (s : String)
  | idInt32 (n : Int32)
  | idNil
deriving DecidableEq

/-- Go type `id` (jsonrpc.go line 49): a struct whose single embedded field
holds the dynamic value. Go equality on `id` is field-wise interface
equality: same dynamic type and same value. -/
structure id where
  val : IDVal
deriving DecidableEq

/-- Go type alias `type ID = id` (jsonrpc.go line 69). -/
abbrev ID := id

/-- `NewID` instantiated at `T = string` (jsonrpc.go lines 54-56):
returns the struct wrapping the given string. -/
def NewIDString (s : String) : id := ⟨IDVal.idString s⟩

/-- `NewID` instantiated at `T = int32` (jsonrpc.go lines 54-56):
returns the struct wrapping the given 32-bit integer. -/
def NewIDInt32 (n : Int32) : id := ⟨IDVal.idInt32 n⟩

/-- True when the id holds the string variant. -/
def id.isStringID : id → Bool
  | ⟨IDVal.idString _⟩ => true
  | _ => false

/-- True when the id holds the int32 variant. -/
def id.isInt32ID : id → Bool
  | ⟨IDVal.idInt32 _⟩ => true
  | _ => false

/-- Model of `func (i id) MarshalJSON() ([]byte, error)` (jsonrpc.go lines
59-61). The body is `return sonic.ConfigDefault.Marshal(&i)`.
`sonic.ConfigDefault` follows the encoding/json contract: a value whose type
implements json.Marshaler is encoded by invoking its MarshalJSON method. The
argument `&i` has type pointer-to-id, and the method set of pointer-to-id
contains MarshalJSON (promoted from the value receiver), so the encoder
re-invokes this very method on the same value. `fuel` bounds that call
depth; `none` models the outcome of the unbounded self-recursion: the Go
program overflows its stack and never returns a byte slice. -/
def id.MarshalJSON : Nat → id → Option (List UInt8)
  | 0, _ => none
  | fuel + 1, i => id.MarshalJSON fuel i

/-- Model of `func (i *id) UnmarshalJSON(data []byte) error` (jsonrpc.go
lines 64-67). The body resets the receiver and returns
`sonic.ConfigDefault.Unmarshal(data, &i)` where `&i` has type
pointer-to-pointer-to-id. The decoder dereferences to a pointer-to-id value,
whose type implements json.Unmarshaler, so it re-invokes this very method on
the same destination with the same bytes. `fuel` bounds that call depth;
`none` models the unbounded self-recursion (stack overflow): no decoded id
is ever produced. -/
def id.UnmarshalJSON : Nat → List UInt8 → Option id
  | 0, _ => none
  | fuel + 1, data => id.UnmarshalJSON fuel data

/-- `JSONRPCMessage` (jsonrpc.go lines 104-110): version string plus the
embedded correlation ID. -/
structure JSONRPCMessage where
  JSONRPC : String
  ID : id
deriving DecidableEq

/-- `NewJSONRPCMessage` (jsonrpc.go lines 113-118). -/
def NewJSONRPCMessage (i : id) : JSONRPCMessage :=
  { JSONRPC := "2.0", ID := i }

/-! ### jsonrpc.go: error codes (lines 145-170) and JSONRPCError (172-180) -/

def JSONParseErrorCode : Int := -32700

def InvalidRequestErrorCode : Int := -32600

def MethodNotFoundErrorCode : Int := -32601

def InvalidParamsErrorCode : Int := -32602

def InternalErrorCode : Int := -32603

def TaskNotFoundErrorCode : Int := -32001

def TaskNotCancelableErrorCode : Int := -32002

def PushNotificationNotSupportedErrorCode : Int := -32003

def UnsupportedOperationErrorCode : Int := -32004

def ContentTypeNotSupportedErrorCode : Int := -32005

/-- `JSONRPCError` (jsonrpc.go lines 173-180). `Data` has Go type any with
zero value nil, modelled as GoVal with default vnil. -/
structure JSONRPCError where
  Code : Int
  Message : String
  Data : GoVal := GoVal.vnil
deriving DecidableEq

/-- `NewJSONParseError` (jsonrpc.go lines 183-188). -/
def NewJSONParseError : JSONRPCError :=
  { Code := JSONParseErrorCode, Message := "Invalid JSON payload" }

/-- `NewInvalidRequestError` (jsonrpc.go lines 191-196). -/
def NewInvalidRequestError : JSONRPCError :=
  { Code := InvalidRequestErrorCode, Message := "Request payload validation error" }

/-- `NewMethodNotFoundError` (jsonrpc.go lines 199-204). -/
def NewMethodNotFoundError : JSONRPCError :=
  { Code := MethodNotFoundErrorCode, Message := "Method not found" }

/-- `NewInvalidParamsError` (jsonrpc.go lines 207-212). -/
def NewInvalidParamsError : JSONRPCError :=
  { Code := InvalidParamsErrorCode, Message := "Invalid parameters" }

/-- `NewInternalError` (jsonrpc.go lines 215-220). -/
def NewInternalError : JSONRPCError :=
  { Code := InternalErrorCode, Message := "Internal error" }

/-- `NewTaskNotFoundError` (jsonrpc.go lines 223-228). -/
def NewTaskNotFoundError : JSONRPCError :=
  { Code := TaskNotFoundErrorCode, Message := "Task not found" }

/-- `NewTaskNotCancelableError` (jsonrpc.go lines 231-236). -/
def NewTaskNotCancelableError : JSONRPCError :=
  { Code := TaskNotCancelableErrorCode, Message := "Task cannot be canceled" }

/-- `NewPushNotificationNotSupportedError` (jsonrpc.go lines 239-244). -/
def NewPushNotificationNotSupportedError : JSONRPCError :=
  { Code := PushNotificationNotSupportedErrorCode, Message := "Push Notification is not supported" }

/-- `NewUnsupportedOperationError` (jsonrpc.go lines 247-252). -/
def NewUnsupportedOperationError : JSONRPCError :=
  { Code := UnsupportedOperationErrorCode, Message := "This operation is not supported" }

/-- `NewContentTypeNotSupportedError` (jsonrpc.go lines 255-260). -/
def NewContentTypeNotSupportedError : JSONRPCError :=
  { Code := ContentTypeNotSupportedErrorCode, Message := "Content type not supported" }

/-! ### schema file: PartType, Role, Metadata, Part, Message, Artifact -/

/-- `type PartType string` (schema lines 49-58). -/
abbrev PartType := String

def PartTypeText : PartType := "text"

def PartTypeFile : PartType := "file"

def PartTypeData : PartType := "data"

/-- `type Role string` (schema lines 39-46). -/
abbrev Role := String

def RoleUser : Role := "user"

def RoleAgent : Role := "agent"

/-- `Metadata` (schema lines 72-76): FileName and Title are pointer fields,
Additional has type any. -/
structure Metadata where
  FileName : Option String := none
  Title : Option String := none
  Additional : GoVal := GoVal.vnil
deriving DecidableEq

/-- `Part` (schema lines 61-69). The Go field Type is named `type` here
(Type is reserved in Lean). Text, FileBytes, FileURI, MimeType and Metadata
are pointer fields (Option, zero value none); Data has type any (GoVal,
zero value vnil). Defaults are the Go zero values, so a constructor body
listing only the fields it sets matches the Go composite literal. -/
structure Part where
  type : PartType := ""
  Text : Option String := none
  Data : GoVal := GoVal.vnil
  FileBytes : Option (List UInt8) := none
  FileURI : Option String := none
  MimeType : Option String := none
  Metadata : Option A2A.Metadata := none
deriving DecidableEq

/-- `Message` (schema lines 79-82). -/
structure Message where
  Role : A2A.Role
  Parts : List Part
deriving DecidableEq

/-- `Artifact` (schema lines 85-90). Index has Go type int; Labels has type
any. -/
structure Artifact where
  Parts : List Part
  Index : Int
  Title : String := ""
  Labels : GoVal := GoVal.vnil
deriving DecidableEq

/-- `NewTextPart` (schema lines 246-251): sets Type to text and Text to the
address of the argument; every other field keeps its zero value. -/
def NewTextPart (text : String) : Part :=
  { type := PartTypeText, Text := some text }

/-- `NewDataPart` (schema lines 254-259): sets Type to data and stores the
argument (a value of type any, possibly nil) in Data. -/
def NewDataPart (data : GoVal) : Part :=
  { type := PartTypeData, Data := data }

/-- `NewFilePart` (schema lines 262-271): sets Type to file, FileBytes,
MimeType, and a Metadata record carrying the file name. -/
def NewFilePart (fileBytes : List UInt8) (mimeType : String) (fileName : String) : Part :=
  { type := PartTypeFile
    FileBytes := some fileBytes
    MimeType := some mimeType
    Metadata := some { FileName := some fileName } }

/-- `NewFileUriPart` (schema lines 274-283): sets Type to file, FileURI,
MimeType, and a Metadata record carrying the file name. -/
def NewFileUriPart (fileUri : String) (mimeType : String) (fileName : String) : Part :=
  { type := PartTypeFile
    FileURI := some fileUri
    MimeType := some mimeType
    Metadata := some { FileName := some fileName } }

/-- `NewUserMessage` (schema lines 286-291). -/
def NewUserMessage (parts : List Part) : Message :=
  { Role := RoleUser, Parts := parts }

/-- `NewAgentMessage` (schema lines 294-299). -/
def NewAgentMessage (parts : List Part) : Message :=
  { Role := RoleAgent, Parts := parts }

/-- `NewArtifact` (schema lines 302-308): stores the given index, title and
parts verbatim; Labels keeps its zero value. -/
def NewArtifact (index : Int) (title : String) (parts : List Part) : Artifact :=
  { Parts := parts, Index := index, Title := title }

/-- Number of populated payload fields of a Part, among Text, Data,
FileBytes and FileURI. A pointer field is populated when non-nil; the
any-typed Data field is populated when it is not the nil interface value. -/
def Part.payloadCount (p : Part) : Nat :=
  (if p.Text.isSome then 1 else 0) + (if p.Data ≠ GoVal.vnil then 1 else 0) +
  (if p.FileBytes.isSome then 1 else 0) + (if p.FileURI.isSome then 1 else 0)

/-- Each populated payload field of the Part agrees with its Type tag. -/
def Part.payloadMatchesType (p : Part) : Prop :=
  (p.Text.isSome → p.type = PartTypeText) ∧
  (p.Data ≠ GoVal.vnil → p.type = PartTypeData) ∧
  (p.FileBytes.isSome ∨ p.FileURI.isSome → p.type = PartTypeFile)

/-! ## Theorems for the claims -/

/-- C1: the claim asserts that encoding an ID built by NewID with
id.MarshalJSON and decoding the bytes with id.UnmarshalJSON returns an ID
equal to the original. It fails: both methods re-enter themselves through
the sonic Marshaler and Unmarshaler dispatch, so for every recursion depth
neither ever produces a result; no bytes are ever encoded and no ID is ever
decoded, for either variant of NewID. -/
theorem marshal_unmarshal_never_return (fuel : Nat) (s : String) (n : Int32)
    (data : List UInt8) :
    id.MarshalJSON fuel (NewIDString s) = none ∧
    id.MarshalJSON fuel (NewIDInt32 n) = none ∧
    id.UnmarshalJSON fuel data = none := by
  induction fuel with
  | zero => exact ⟨rfl, rfl, rfl⟩
  | succ k ih => exact ih

/-- C1 witness: the round-trip claim evaluated at the concrete ID built from
the string "1" and at the one built from the integer 1, at recursion
depth 1000: no output in any direction. -/
theorem marshal_unmarshal_never_return_app :
    id.MarshalJSON 1000 (NewIDString "1") = none ∧
    id.MarshalJSON 1000 (NewIDInt32 ⟨1, by decide⟩) = none ∧
    id.UnmarshalJSON 1000 [49] = none :=
  marshal_unmarshal_never_return 1000 "1" ⟨1, by decide⟩ [49]

/-- C2: each of the ten error constructors returns a JSONRPCError carrying
the stable numeric code of its kind and the non-empty default message of
that kind. -/
theorem error_constructor_codes_and_messages :
    (NewJSONParseError.Code = -32700 ∧
      NewJSONParseError.Message = "Invalid JSON payload" ∧
      NewJSONParseError.Message ≠ "") ∧
    (NewInvalidRequestError.Code = -32600 ∧
      NewInvalidRequestError.Message = "Request payload validation error" ∧
      NewInvalidRequestError.Message ≠ "") ∧
    (NewMethodNotFoundError.Code = -32601 ∧
      NewMethodNotFoundError.Message = "Method not found" ∧
      NewMethodNotFoundError.Message ≠ "") ∧
    (NewInvalidParamsError.Code = -32602 ∧
      NewInvalidParamsError.Message = "Invalid parameters" ∧
      NewInvalidParamsError.Message ≠ "") ∧
    (NewInternalError.Code = -32603 ∧
      NewInternalError.Message = "Internal error" ∧
      NewInternalError.Message ≠ "") ∧
    (NewTaskNotFoundError.Code = -32001 ∧
      NewTaskNotFoundError.Message = "Task not found" ∧
      NewTaskNotFoundError.Message ≠ "") ∧
    (NewTaskNotCancelableError.Code = -32002 ∧
      NewTaskNotCancelableError.Message = "Task cannot be canceled" ∧
      NewTaskNotCancelableError.Message ≠ "") ∧
    (NewPushNotificationNotSupportedError.Code = -32003 ∧
      NewPushNotificationNotSupportedError.Message = "Push Notification is not supported" ∧
      NewPushNotificationNotSupportedError.Message ≠ "") ∧
    (NewUnsupportedOperationError.Code = -32004 ∧
      NewUnsupportedOperationError.Message = "This operation is not supported" ∧
      NewUnsupportedOperationError.Message ≠ "") ∧
    (NewContentTypeNotSupportedError.Code = -32005 ∧
      NewContentTypeNotSupportedError.Message = "Content type not supported" ∧
      NewContentTypeNotSupportedError.Message ≠ "") := by
  decide

/-- C3: every ID produced by NewID holds exactly one of the string variant
or the int32 variant, never both, and two NewID-built IDs are equal exactly
when they hold the same variant with the same value. -/
theorem newID_variant_and_equality (v : id)
    (h : (∃ s, v = NewIDString s) ∨ (∃ n, v = NewIDInt32 n)) :
    ((v.isStringID = true ∨ v.isInt32ID = true) ∧
      ¬(v.isStringID = true ∧ v.isInt32ID = true)) ∧
    (∀ s t : String, NewIDString s = NewIDString t ↔ s = t) ∧
    (∀ a b : Int32, NewIDInt32 a = NewIDInt32 b ↔ a = b) ∧
    (∀ (s : String) (n : Int32), NewIDString s ≠ NewIDInt32 n) := by
  refine ⟨?_, ?_, ?_, ?_⟩
  · rcases h with ⟨s, rfl⟩ | ⟨n, rfl⟩ <;>
      simp [NewIDString, NewIDInt32, id.isStringID, id.isInt32ID]
  · intro s t
    simp [NewIDString]
  · intro a b
    simp [NewIDInt32]
  · intro s n
    simp [NewIDString, NewIDInt32]

/-- C3 witness: the variant and equality properties evaluated at the
concrete ID built from the string "1". -/
theorem newID_variant_and_equality_app :
    (((NewIDString "1").isStringID = true ∨ (NewIDString "1").isInt32ID = true) ∧
      ¬((NewIDString "1").isStringID = true ∧ (NewIDString "1").isInt32ID = true)) ∧
    (∀ s t : String, NewIDString s = NewIDString t ↔ s = t) ∧
    (∀ a b : Int32, NewIDInt32 a = NewIDInt32 b ↔ a = b) ∧
    (∀ (s : String) (n : Int32), NewIDString s ≠ NewIDInt32 n) :=
  newID_variant_and_equality (NewIDString "1") (Or.inl ⟨"1", rfl⟩)

/-- C4 counterexample: the claim asserts every Part built by the four
constructors has exactly one populated payload field, but NewDataPart
applied to the nil interface value populates none of them. -/
theorem newDataPart_nil_no_payload :
    ¬ (NewDataPart GoVal.vnil).payloadCount = 1 := by
  decide

/-- C4 (amended): NewTextPart, NewFilePart and NewFileUriPart always
populate exactly one payload field, matching the Type tag; NewDataPart does
so exactly when its argument is not the nil interface value (with a nil
argument it populates no payload field at all). -/
theorem part_constructors_tagged_union :
    (∀ text : String, (NewTextPart text).payloadCount = 1 ∧
      (NewTextPart text).type = PartTypeText ∧
      (NewTextPart text).Text = some text ∧
      (NewTextPart text).payloadMatchesType) ∧
    (∀ d : GoVal, d ≠ GoVal.vnil → (NewDataPart d).payloadCount = 1 ∧
      (NewDataPart d).type = PartTypeData ∧
      (NewDataPart d).Data = d ∧
      (NewDataPart d).payloadMatchesType) ∧
    (∀ (b : List UInt8) (m f : String), (NewFilePart b m f).payloadCount = 1 ∧
      (NewFilePart b m f).type = PartTypeFile ∧
      (NewFilePart b m f).FileBytes = some b ∧
      (NewFilePart b m f).payloadMatchesType) ∧
    (∀ (u m f : String), (NewFileUriPart u m f).payloadCount = 1 ∧
      (NewFileUriPart u m f).type = PartTypeFile ∧
      (NewFileUriPart u m f).FileURI = some u ∧
      (NewFileUriPart u m f).payloadMatchesType) := by
  refine ⟨?_, ?_, ?_, ?_⟩
  · intro text
    refine ⟨?_, rfl, rfl, ?_⟩ <;>
      simp [NewTextPart, Part.payloadCount, Part.payloadMatchesType]
  · intro d hd
    refine ⟨?_, rfl, rfl, ?_⟩ <;>
      simp [NewDataPart, Part.payloadCount, Part.payloadMatchesType, hd]
  · intro b m f
    refine ⟨?_, rfl, rfl, ?_⟩ <;>
      simp [NewFilePart, Part.payloadCount, Part.payloadMatchesType]
  · intro u m f
    refine ⟨?_, rfl, rfl, ?_⟩ <;>
      simp [NewFileUriPart, Part.payloadCount, Part.payloadMatchesType]

/-- C4 witness: the tagged-union property evaluated at concrete
constructor calls, with the non-nil hypothesis discharged at the
concrete data value. -/
theorem part_constructors_tagged_union_app :
    (NewTextPart "hi").payloadCount = 1 ∧
    (NewDataPart (GoVal.vint 5)).payloadCount = 1 ∧
    (NewFilePart [104] "text/plain" "a.txt").payloadCount = 1 ∧
    (NewFileUriPart "file:///a" "text/plain" "a.txt").payloadCount = 1 :=
  ⟨(part_constructors_tagged_union.1 "hi").1,
    (part_constructors_tagged_union.2.1 (GoVal.vint 5) (by decide)).1,
    (part_constructors_tagged_union.2.2.1 [104] "text/plain" "a.txt").1,
    (part_constructors_tagged_union.2.2.2 "file:///a" "text/plain" "a.txt").1⟩

/-- C5: the seven protocol method-name constants have exactly the listed
string values and are pairwise distinct. -/
theorem method_names_values_and_distinct :
    MethodSend = "tasks/send" ∧
    MethodGet = "tasks/get" ∧
    MethodCancel = "tasks/cancel" ∧
    MethodPushNotificationSet = "tasks/pushNotification/set" ∧
    MethodPushNotificationGet = "tasks/pushNotification/get" ∧
    MethodSendSubscribe = "tasks/sendSubscribe" ∧
    MethodResubscribe = "tasks/resubscribe" ∧
    [MethodSend, MethodGet, MethodCancel, MethodPushNotificationSet,
      MethodPushNotificationGet, MethodSendSubscribe, MethodResubscribe].Nodup := by
  decide

/-- C6: NewJSONRPCMessage always sets the JSONRPC version field to the
string 2.0 and stores the given ID unchanged. -/
theorem newJSONRPCMessage_fields (i : id) :
    (NewJSONRPCMessage i).JSONRPC = "2.0" ∧ (NewJSONRPCMessage i).ID = i :=
  ⟨rfl, rfl⟩

/-- C7 counterexample: the claim asserts every Artifact built by NewArtifact
has a non-negative index, but NewArtifact stores the given index without
validation, so the index -1 yields a negative Index field. -/
theorem newArtifact_negative_index :
    ¬ 0 ≤ (NewArtifact (-1) "" []).Index := by
  decide

/-- C7 (amended): NewArtifact stores the given index unchanged, so the
constructed Artifact has a non-negative index exactly when the given index
is non-negative; the constructor itself enforces nothing. -/
theorem newArtifact_index_passthrough (index : Int) (title : String)
    (parts : List Part) (h : 0 ≤ index) :
    (NewArtifact index title parts).Index = index ∧
    0 ≤ (NewArtifact index title parts).Index :=
  ⟨rfl, h⟩

/-- C7 witness: the amended property evaluated at the concrete index 3. -/
theorem newArtifact_index_passthrough_app :
    (NewArtifact 3 "t" []).Index = 3 ∧ 0 ≤ (NewArtifact 3 "t" []).Index :=
  newArtifact_index_passthrough 3 "t" [] (by decide)

/-- C8: NewUserMessage yields Role user and NewAgentMessage yields Role
agent, both carrying exactly the given parts in the given order. -/
theorem new_message_role_and_parts (parts : List Part) :
    ((NewUserMessage parts).Role = RoleUser ∧
      (NewUserMessage parts).Parts = parts) ∧
    ((NewAgentMessage parts).Role = RoleAgent ∧
      (NewAgentMessage parts).Parts = parts) :=
  ⟨⟨rfl, rfl⟩, ⟨rfl, rfl⟩⟩

/-- C9: none of the ten error constructors attaches detail data: the Data
field of every constructed JSONRPCError is the nil interface value. -/
theorem error_constructor_data_nil :
    NewJSONParseError.Data = GoVal.vnil ∧
    NewInvalidRequestError.Data = GoVal.vnil ∧
    NewMethodNotFoundError.Data = GoVal.vnil ∧
    NewInvalidParamsError.Data = GoVal.vnil ∧
    NewInternalError.Data = GoVal.vnil ∧
    NewTaskNotFoundError.Data = GoVal.vnil ∧
    NewTaskNotCancelableError.Data = GoVal.vnil ∧
    NewPushNotificationNotSupportedError.Data = GoVal.vnil ∧
    NewUnsupportedOperationError.Data = GoVal.vnil ∧
    NewContentTypeNotSupportedError.Data = GoVal.vnil :=
  ⟨rfl, rfl, rfl, rfl, rfl, rfl, rfl, rfl, rfl, rfl⟩

/-- C10: every file Part built by NewFilePart or NewFileUriPart carries a
non-nil Metadata whose FileName is the given file name, a non-nil MimeType
equal to the given MIME type, and its single payload field (FileBytes or
FileURI respectively). -/
theorem file_parts_metadata_and_payload (fileBytes : List UInt8)
    (fileUri mimeType fileName : String) :
    ((NewFilePart fileBytes mimeType fileName).Metadata =
        some { FileName := some fileName } ∧
      (NewFilePart fileBytes mimeType fileName).MimeType = some mimeType ∧
      (NewFilePart fileBytes mimeType fileName).FileBytes = some fileBytes ∧
      (NewFilePart fileBytes mimeType fileName).FileURI = none) ∧
    ((NewFileUriPart fileUri mimeType fileName).Metadata =
        some { FileName := some fileName } ∧
      (NewFileUriPart fileUri mimeType fileName).MimeType = some mimeType ∧
      (NewFileUriPart fileUri mimeType fileName).FileURI = some fileUri ∧
      (NewFileUriPart fileUri mimeType fileName).FileBytes = none) :=
  ⟨⟨rfl, rfl, rfl, rfl⟩, ⟨rfl, rfl, rfl, rfl⟩⟩

end A2A
